import Mathlib

/-
Verification of the crashdetect diagnostic engine (src/src/crashdetect.cpp).

The embedding models the crashdetect class as pure functions over an
explicit state.  The process-wide mutable state consists of the
double-report latch `errorCaught_` and the global stack of in-flight
call records `npCalls_`.  Observable side effects (log lines, backtrace
printing, external command execution, process termination) are recorded
as an explicit list of `Effect` values, in program order.  External
collaborators that live outside this source file (the VM execution
primitive `amx_Exec`, the saved original callback, the release primitive
`amx_Release`, the stack-frame walker `AMXStackTrace`, module/path
resolution) are passed in as function parameters.
-/

/-- VM error codes, from the external amx.h header (not part of this
repository's sources); values follow the standard AMX enumeration. -/
def AMX_ERR_NONE : Int := 0

/-- Stack/heap collision error code. -/
def AMX_ERR_STACKERR : Int := 3

/-- Array index out of bounds error code. -/
def AMX_ERR_BOUNDS : Int := 4

/-- Invalid instruction error code. -/
def AMX_ERR_INVINSTR : Int := 6

/-- Stack underflow error code. -/
def AMX_ERR_STACKLOW : Int := 7

/-- Heap underflow error code. -/
def AMX_ERR_HEAPLOW : Int := 8

/-- Invalid callback error code. -/
def AMX_ERR_CALLBACK : Int := 9

/-- Native function not found error code. -/
def AMX_ERR_NOTFOUND : Int := 19

/-- Invalid entry-point index error code. -/
def AMX_ERR_INDEX : Int := 20

/-- AMX not initialized error code. -/
def AMX_ERR_INIT : Int := 22

/-- The reserved debugger-detach sentinel index (crashdetect.cpp line 50). -/
def AMX_EXEC_GDK : Int := -10

/-- The process failure status used by std::exit(EXIT_FAILURE); any
nonzero value models it. -/
def EXIT_FAILURE : Nat := 1

/-- One entry of the instance's native-function table
(AMX_FUNCSTUBNT): a bound address (0 when still unresolved) and a
name. -/
structure NativeEntry where
  address : Int
  name : String
deriving DecidableEq

/-- The per-instance VM registers and metadata the classifier and the
validator read: registers cip/frm/stk/hea/hlw/stp/pri, the code-segment
offset from the header, a cell-read function over the memory image, and
the native table. -/
structure AMXData where
  cip : Int
  frm : Int
  stk : Int
  hea : Int
  hlw : Int
  stp : Int
  pri : Int
  codOffset : Int
  mem : Int → Int
  natives : List NativeEntry

/-- The configuration options the engine reads from server.cfg:
die_on_error and run_on_error. -/
structure Config where
  dieOnError : Bool
  runOnError : String
deriving DecidableEq

/-- An observable side effect of the engine, recorded in program
order. -/
inductive Effect where
  | log (line : String)
  | amxBacktrace
  | systemBacktrace
  | runCommand (cmd : String)
  | exitProcess (code : Nat)
deriving DecidableEq

/-- True exactly on the process-termination effect. -/
def isExitEffect : Effect → Bool
  | Effect.exitProcess _ => true
  | _ => false

/-- Whether an effect sequence terminates the process (contains an
exit). -/
def died (effs : List Effect) : Bool := effs.any isExitEffect

/-- Unsigned hexadecimal rendering of a 32-bit cell, as printf %x does
on a cell value. -/
def cellToUHex (i : Int) : String := String.mk (Nat.toDigits 16 ((i % (2 ^ 32)).toNat))

/-- crashdetect::DieOrContinue (crashdetect.cpp lines 96-101): if the
die_on_error option is set, log and terminate with EXIT_FAILURE;
otherwise do nothing. -/
def DieOrContinue (cfg : Config) : List Effect :=
  if cfg.dieOnError then
    [Effect.log "Aborting...", Effect.exitProcess EXIT_FAILURE]
  else
    []

/-- crashdetect::HandleReleaseError (crashdetect.cpp lines 250-258):
resolve the releasing module (falling back to "<unknown>"), log the two
diagnostic lines and print a system backtrace.  `mdl` is the external
module-path-from-address service. -/
def HandleReleaseError (mdl : Int → String) (address releaser : Int) : List Effect :=
  let plugin := if mdl releaser = "" then "<unknown>" else mdl releaser
  [Effect.log "Bad heap release detected:",
   Effect.log (" " ++ plugin ++ " [" ++ cellToUHex releaser ++ "] is releasing memory at "
     ++ cellToUHex address ++ " which is out of heap"),
   Effect.systemBacktrace]

/-- crashdetect::DoAmxRelease (crashdetect.cpp lines 168-173): flag the
release when the address lies outside [hlw, stk), then always call the
underlying amx_Release primitive (modelled by `release`) and return its
result. -/
def DoAmxRelease (release : Int → Int) (mdl : Int → String) (a : AMXData)
    (amx_addr releaser : Int) : Int × List Effect :=
  let effs :=
    if amx_addr < a.hlw ∨ amx_addr ≥ a.stk then
      HandleReleaseError mdl amx_addr releaser
    else
      []
  (release amx_addr, effs)

/-- Modelled from the spec: the external error-description lookup
aux_StrError (amxaux, not part of this repository's sources), treated
as an opaque description of the numeric code. -/
def aux_StrError (error : Int) : String := "error " ++ toString error

/-- The per-kind augmentation switch of crashdetect::HandleExecError
(crashdetect.cpp lines 185-222): bounds details, unresolved natives,
pointer dumps, invalid opcode. -/
def augment (a : AMXData) (error : Int) : List Effect :=
  if error = AMX_ERR_BOUNDS then
    let bound := a.mem (a.cip + a.codOffset + 4)
    let idx := a.pri
    if idx < 0 then
      [Effect.log (" Accessing element at negative index " ++ toString idx)]
    else
      [Effect.log (" Accessing element at index " ++ toString idx
        ++ " past array upper bound " ++ toString bound)]
  else if error = AMX_ERR_NOTFOUND then
    (a.natives.filter (fun n => n.address = 0)).map (fun n => Effect.log (" " ++ n.name))
  else if error = AMX_ERR_STACKERR then
    [Effect.log (" Stack pointer (STK) is 0x" ++ cellToUHex a.stk
      ++ ", heap pointer (HEA) is 0x" ++ cellToUHex a.hea)]
  else if error = AMX_ERR_STACKLOW then
    [Effect.log (" Stack pointer (STK) is 0x" ++ cellToUHex a.stk
      ++ ", stack top (STP) is 0x" ++ cellToUHex a.stp)]
  else if error = AMX_ERR_HEAPLOW then
    [Effect.log (" Heap pointer (HEA) is 0x" ++ cellToUHex a.hea
      ++ ", heap bottom (HLW) is 0x" ++ cellToUHex a.hlw)]
  else if error = AMX_ERR_INVINSTR then
    [Effect.log (" Unknown opcode 0x" ++ cellToUHex (a.mem (a.cip + a.codOffset))
      ++ " at address 0x" ++ cellToUHex a.cip)]
  else
    []

/-- crashdetect::HandleExecError (crashdetect.cpp lines 175-238).  The
returned Bool is the value of the global latch errorCaught_ after the
call: it is set to true as the function's first action and never
changed afterwards.  On the debugger-detach sentinel path
(error == AMX_ERR_INDEX and index == AMX_EXEC_GDK) the function
returns before producing any effect.  Otherwise it logs the generic
run-time-error line, appends the per-kind augmentation, invokes the
AMX backtrace unless the code is one of the four excluded ones, runs
the configured external command when set, and finally applies
DieOrContinue. -/
def HandleExecError (cfg : Config) (a : AMXData) (index error : Int) : List Effect × Bool :=
  if error = AMX_ERR_INDEX ∧ index = AMX_EXEC_GDK then
    ([], true)
  else
    (Effect.log ("Run time error " ++ toString error ++ ": \"" ++ aux_StrError error ++ "\"")
      :: (augment a error
        ++ (if error ≠ AMX_ERR_NOTFOUND ∧ error ≠ AMX_ERR_INDEX
              ∧ error ≠ AMX_ERR_CALLBACK ∧ error ≠ AMX_ERR_INIT then
              [Effect.amxBacktrace]
            else
              [])
        ++ (if cfg.runOnError ≠ "" then [Effect.runCommand cfg.runOnError] else [])
        ++ DieOrContinue cfg),
     true)

/-- The variant tag of a call record: native dispatch vs public
entrypoint. -/
inductive NPCallKind where
  | native
  | publicEntry
deriving DecidableEq

/-- Modelled from the spec: one in-flight call record (npcall.h is not
part of this repository's sources).  It records the variant, the owning
VM instance handle, the callee index, and for the entrypoint variant
the instance's frame/instruction pointers captured at call time. -/
structure NPCall where
  kind : NPCallKind
  amx : Nat
  index : Int
  frm : Int
  cip : Int
deriving DecidableEq

/-- Modelled from the spec: NPCall::Native constructor — records the
callee index and the instance. -/
def NPCall.Native (amxId : Nat) (index : Int) : NPCall :=
  { kind := NPCallKind.native, amx := amxId, index := index, frm := 0, cip := 0 }

/-- Modelled from the spec: NPCall::Public constructor — records the
entrypoint index, the instance, and the instance's frame/instruction
pointers at the moment of the call. -/
def NPCall.Public (amxId : Nat) (index : Int) (a : AMXData) : NPCall :=
  { kind := NPCallKind.publicEntry, amx := amxId, index := index, frm := a.frm, cip := a.cip }

/-- The process-wide mutable state of crashdetect: the double-report
latch errorCaught_ and the global call stack npCalls_ (top of stack at
the head of the list). -/
structure CDState where
  errorCaught : Bool
  npCalls : List NPCall
deriving DecidableEq

/-- Pushing a native-variant call record (npCalls_.push in
DoAmxCallback). -/
def pushNative (s : CDState) (amxId : Nat) (index : Int) : CDState :=
  { s with npCalls := NPCall.Native amxId index :: s.npCalls }

/-- Pushing an entrypoint-variant call record (npCalls_.push in
DoAmxExec). -/
def pushPublic (s : CDState) (amxId : Nat) (index : Int) (a : AMXData) : CDState :=
  { s with npCalls := NPCall.Public amxId index a :: s.npCalls }

/-- crashdetect::DoAmxCallback (crashdetect.cpp lines 141-149): push a
native call record, delegate to the saved original callback `cb`
(which may itself transform the state, e.g. by nested wrapped calls),
pop the record, and return the original return code unchanged. -/
def DoAmxCallback (cb : CDState → Int × CDState) (s : CDState)
    (amxId : Nat) (index : Int) : Int × CDState :=
  let s1 := pushNative s amxId index
  let r := cb s1
  (r.1, { r.2 with npCalls := r.2.npCalls.tail })

/-- crashdetect::DoAmxExec (crashdetect.cpp lines 151-166): push an
entrypoint call record, run the VM execution primitive `exec` (which
may transform the state, e.g. a nested HandleExecError setting the
latch), then: when the return code is non-success and the latch is
unset, forward to HandleExecError (the amx_Error path); otherwise
clear the latch.  Finally pop the record and return the primitive's
return code.  The result is (returned value if control returns —
none when HandleExecError terminated the process —, the effects
produced, whether the classifier was invoked). -/
def DoAmxExec (exec : CDState → Int × CDState) (cfg : Config) (a : AMXData)
    (s : CDState) (amxId : Nat) (index : Int) :
    Option (Int × CDState) × List Effect × Bool :=
  let s1 := pushPublic s amxId index a
  let r := exec s1
  let retcode := r.1
  let s2 := r.2
  if retcode ≠ AMX_ERR_NONE ∧ s2.errorCaught = false then
    let he := HandleExecError cfg a index retcode
    let s3 : CDState := { s2 with errorCaught := he.2 }
    if died he.1 then
      (none, he.1, true)
    else
      (some (retcode, { s3 with npCalls := s3.npCalls.tail }), he.1, true)
  else
    (some (retcode, { s2 with errorCaught := false, npCalls := s2.npCalls.tail }), [], false)

/-- One reconstructed logical VM frame as built by PrintAmxBacktrace:
the frame address, return address and entry (call) address passed to
the AMXStackFrame constructor. -/
structure AMXStackFrame where
  frameAddr : Int
  retAddr : Int
  callAddr : Int
deriving DecidableEq

/-- The external services PrintAmxBacktrace consults: the instance
registry (register state, loaded debug info, script name), the
stack-frame walker AMXStackTrace (as a function of the instance and the
frame/instruction pointers pushed before the walk), native/public
symbol lookup (amxutils), module resolution (os), and frame
stringification (AMXStackFrame::AsString). -/
structure Env where
  instances : Nat → AMXData
  debugLoaded : Nat → Bool
  amxName : Nat → String
  walk : Nat → Int → Int → List AMXStackFrame
  nativeAddr : Nat → Int → Int
  nativeName : Nat → Int → Option String
  publicAddr : Nat → Int → Int
  moduleOf : Int → String
  frameStr : AMXStackFrame → String

/-- Replacing the bottom frame of the walked list with one whose entry
address is the public's address (crashdetect.cpp lines 329-336, taken
when debug info is not loaded). -/
def replaceBottom (frames : List AMXStackFrame) (ep : Int) : List AMXStackFrame :=
  match frames with
  | [] => []
  | [b] => [{ frameAddr := b.frameAddr, retAddr := b.retAddr, callAddr := ep }]
  | f :: rest => f :: replaceBottom rest ep

/-- The frame list printed for one entrypoint call record
(crashdetect.cpp lines 306-337): walk the instance's stack from the
current (frm, cip); if the walk yields no frames, synthesize a single
frame at the entrypoint's address (retAddr 0); otherwise, when debug
info is not loaded, rewrite the bottom frame's entry address to the
entrypoint's address. -/
def publicFrames (env : Env) (call : NPCall) (frm cip : Int) : List AMXStackFrame :=
  let frames := env.walk call.amx frm cip
  if frames.isEmpty then
    [{ frameAddr := frm, retAddr := 0, callAddr := env.publicAddr call.amx call.index }]
  else if env.debugLoaded call.amx = false then
    replaceBottom frames (env.publicAddr call.amx call.index)
  else
    frames

/-- The line printed for one native call record (crashdetect.cpp lines
290-302): nothing when the native's address is unresolved or its name
unknown; otherwise one numbered line naming the native and its
module. -/
def nativeLines (env : Env) (call : NPCall) (level : Nat) : List String :=
  let address := env.nativeAddr call.amx call.index
  if address ≠ 0 then
    match env.nativeName call.amx call.index with
    | some name =>
        let mdl := env.moduleOf address
        let fromStr := if mdl = "" then "" else " from " ++ mdl
        ["#" ++ toString level ++ " native " ++ name ++ " () [" ++ cellToUHex address ++ "]"
          ++ fromStr]
    | none => []
  else
    []

/-- The numbered lines printed for a walked frame list of one
entrypoint record (crashdetect.cpp lines 339-348). -/
def frameLines (env : Env) (amxId : Nat) : Nat → List AMXStackFrame → List String
  | _, [] => []
  | level, f :: rest =>
      let fromStr :=
        if env.amxName amxId = "" ∨ env.debugLoaded amxId = true then
          ""
        else
          " from " ++ env.amxName amxId
      ("#" ++ toString level ++ " " ++ env.frameStr f ++ fromStr)
        :: frameLines env amxId (level + 1) rest

/-- The main loop of crashdetect::PrintAmxBacktrace (crashdetect.cpp
lines 280-355): walk the copied call stack while it is nonempty and cip
is nonzero, stopping at a record of a different instance; native
records print at most one line; entrypoint records print their walked
(or synthesized) frames and resume from the pointers captured in the
record. -/
def processCalls (env : Env) (topAmx : Nat) :
    List NPCall → Int → Int → Nat → List String
  | [], _, _, _ => []
  | call :: rest, frm, cip, level =>
    if cip = 0 then
      []
    else if call.amx ≠ topAmx then
      []
    else
      match call.kind with
      | NPCallKind.native =>
          let lines := nativeLines env call level
          lines ++ processCalls env topAmx rest frm cip (level + lines.length)
      | NPCallKind.publicEntry =>
          let frames := publicFrames env call frm cip
          frameLines env call.amx level frames
            ++ processCalls env topAmx rest call.frm call.cip (level + frames.length)

/-- crashdetect::PrintAmxBacktrace (crashdetect.cpp lines 261-356):
nothing when the call stack is empty or the top instance's cip is zero;
otherwise the header line followed by the stitched frames. -/
def PrintAmxBacktrace (env : Env) (npCalls : List NPCall) : List String :=
  match npCalls with
  | [] => []
  | top :: _ =>
      let a := env.instances top.amx
      if a.cip = 0 then
        []
      else
        "AMX backtrace:" :: processCalls env top.amx npCalls a.frm a.cip 0

/-- A concrete AMX register record used to instantiate universally
quantified statements. -/
def testAMX : AMXData :=
  { cip := 0, frm := 0, stk := 100, hea := 0, hlw := 10, stp := 0, pri := 0,
    codOffset := 0, mem := fun _ => 0, natives := [] }

/-- A concrete configuration used to instantiate universally quantified
statements. -/
def testCfg : Config := { dieOnError := false, runOnError := "" }

/-- A concrete external-service record used to instantiate universally
quantified statements. -/
def testEnv : Env :=
  { instances := fun _ => testAMX, debugLoaded := fun _ => false,
    amxName := fun _ => "", walk := fun _ _ _ => [],
    nativeAddr := fun _ _ => 0, nativeName := fun _ _ => none,
    publicAddr := fun _ _ => 42, moduleOf := fun _ => "",
    frameStr := fun _ => "" }

/-- Membership in a one-element conditional list forces the element and
the condition. -/
lemma mem_ite_singleton {c : Prop} [Decidable c] {x y : Effect}
    (h : x ∈ if c then [y] else ([] : List Effect)) : x = y ∧ c := by
  split at h
  · next hc => exact ⟨List.mem_singleton.mp h, hc⟩
  · exact absurd h (List.not_mem_nil _)

/-- The fatal-policy step never emits the backtrace effect. -/
lemma amxBacktrace_not_mem_die (cfg : Config) :
    Effect.amxBacktrace ∉ DieOrContinue cfg := by
  unfold DieOrContinue
  split <;> simp

/-- Every effect of the per-kind augmentation is a log line. -/
lemma augment_mem_log (a : AMXData) (error : Int) (e : Effect)
    (he : e ∈ augment a error) : ∃ m, e = Effect.log m := by
  unfold augment at he
  dsimp only at he
  repeat' split at he
  all_goals
    first
    | (simp only [List.mem_map] at he
       obtain ⟨n, _, rfl⟩ := he
       exact ⟨_, rfl⟩)
    | (simp only [List.mem_singleton] at he
       exact ⟨_, he⟩)
    | simp at he

/-- The backtrace effect never occurs in the augmentation. -/
lemma amxBacktrace_not_mem_augment (a : AMXData) (error : Int) :
    Effect.amxBacktrace ∉ augment a error := by
  intro h
  obtain ⟨m, hm⟩ := augment_mem_log a error _ h
  exact Effect.noConfusion hm

/-- The augmentation contains no process-exit effect. -/
lemma augment_no_exit (a : AMXData) (error : Int) (e : Effect)
    (he : e ∈ augment a error) : isExitEffect e = false := by
  obtain ⟨m, rfl⟩ := augment_mem_log a error e he
  rfl

/-- C3: the heap-release validator reports a bad-release diagnostic if
and only if the released address lies below the heap low-water mark or
at/above the current stack pointer; for addresses inside [hlw, stk) no
diagnostic at all is produced. -/
theorem release_validator_reports_iff_outside_range
    (release : Int → Int) (mdl : Int → String) (a : AMXData) (amx_addr releaser : Int) :
    (Effect.log "Bad heap release detected:" ∈ (DoAmxRelease release mdl a amx_addr releaser).2
      ↔ (amx_addr < a.hlw ∨ amx_addr ≥ a.stk))
    ∧ (a.hlw ≤ amx_addr ∧ amx_addr < a.stk →
        (DoAmxRelease release mdl a amx_addr releaser).2 = []) := by
  unfold DoAmxRelease
  by_cases h : amx_addr < a.hlw ∨ amx_addr ≥ a.stk
  · rw [if_pos h]
    constructor
    · constructor
      · intro _; exact h
      · intro _
        unfold HandleReleaseError
        exact List.mem_cons_self _ _
    · intro hin
      rcases h with h | h
      · exact absurd hin.1 (not_le.mpr h)
      · exact absurd hin.2 (not_lt.mpr h)
  · rw [if_neg h]
    push_neg at h
    constructor
    · constructor
      · intro hmem; exact absurd hmem (List.not_mem_nil _)
      · intro hout
        rcases hout with hout | hout
        · exact absurd hout (not_lt.mpr h.1)
        · exact absurd hout (not_le.mpr h.2)
    · intro _; rfl

/-- C4: the heap-release wrapper always returns the result of the
underlying release primitive unchanged, whatever the validator decided
about the address. -/
theorem release_always_calls_primitive
    (release : Int → Int) (mdl : Int → String) (a : AMXData) (amx_addr releaser : Int) :
    (DoAmxRelease release mdl a amx_addr releaser).1 = release amx_addr := by
  rfl

/-- C6: on the debugger-detach sentinel (error "index not found",
index AMX_EXEC_GDK) the classifier produces no effect whatsoever — no
run-time-error line, no augmentation, no backtrace, no external
command, no fatal-policy application — and returns with the latch
set. -/
theorem sentinel_suppresses_all_reporting (cfg : Config) (a : AMXData) :
    HandleExecError cfg a AMX_EXEC_GDK AMX_ERR_INDEX = ([], true) := by
  unfold HandleExecError
  rw [if_pos ⟨rfl, rfl⟩]

/-- C5: the classifier invokes the cross-boundary AMX backtrace
stitching if and only if the error code is none of native-not-found,
index-not-found, callback-error and not-initialized. -/
theorem backtrace_stitching_iff_not_excluded (cfg : Config) (a : AMXData) (index error : Int) :
    Effect.amxBacktrace ∈ (HandleExecError cfg a index error).1 ↔
      (error ≠ AMX_ERR_NOTFOUND ∧ error ≠ AMX_ERR_INDEX
        ∧ error ≠ AMX_ERR_CALLBACK ∧ error ≠ AMX_ERR_INIT) := by
  unfold HandleExecError
  by_cases hs : error = AMX_ERR_INDEX ∧ index = AMX_EXEC_GDK
  · rw [if_pos hs]
    simp only [List.not_mem_nil, false_iff]
    intro hc
    exact hc.2.1 hs.1
  · rw [if_neg hs]
    simp only [List.mem_cons, List.mem_append, or_assoc]
    constructor
    · intro h
      rcases h with h | h | h | h | h
      · exact Effect.noConfusion h
      · exact absurd h (amxBacktrace_not_mem_augment a error)
      · exact (mem_ite_singleton h).2
      · exact Effect.noConfusion (mem_ite_singleton h).1
      · exact absurd h (amxBacktrace_not_mem_die cfg)
    · intro hc
      right; right; left
      rw [if_pos hc]
      exact List.mem_singleton.mpr rfl

/-- The last effect of a list ending in a two-element suffix. -/
lemma getLast_append_two (L : List Effect) (x y : Effect) :
    (L ++ [x, y]).getLast? = some y := by
  have h : L ++ [x, y] = (L ++ [x]) ++ [y] := by simp
  rw [h, List.getLast?_concat]

/-- The augmentation never terminates the process. -/
lemma died_augment (a : AMXData) (error : Int) : died (augment a error) = false := by
  unfold died
  rw [List.any_eq_false]
  intro e he
  simp [augment_no_exit a error e he]

/-- A conditional singleton of a non-exit effect never terminates the
process. -/
lemma died_ite_singleton (c : Prop) [Decidable c] (x : Effect)
    (hx : isExitEffect x = false) :
    died (if c then [x] else ([] : List Effect)) = false := by
  split
  · simp [died, hx]
  · rfl

/-- C8: after a classified (non-sentinel) VM error has produced its
diagnostics, the classifier's effect sequence ends in a process exit
with the nonzero EXIT_FAILURE status exactly when die_on_error is
enabled, and contains no process exit at all when it is disabled. -/
theorem fatal_policy_after_diagnostics (cfg : Config) (a : AMXData) (index error : Int)
    (hns : ¬(error = AMX_ERR_INDEX ∧ index = AMX_EXEC_GDK)) :
    (cfg.dieOnError = true →
       (HandleExecError cfg a index error).1.getLast? = some (Effect.exitProcess EXIT_FAILURE)
       ∧ EXIT_FAILURE ≠ 0)
    ∧ (cfg.dieOnError = false → died (HandleExecError cfg a index error).1 = false) := by
  unfold HandleExecError
  rw [if_neg hns]
  constructor
  · intro hdie
    refine ⟨?_, by decide⟩
    unfold DieOrContinue
    rw [if_pos hdie]
    have heq :
        Effect.log ("Run time error " ++ toString error ++ ": \"" ++ aux_StrError error ++ "\"")
          :: (augment a error
            ++ (if error ≠ AMX_ERR_NOTFOUND ∧ error ≠ AMX_ERR_INDEX
                  ∧ error ≠ AMX_ERR_CALLBACK ∧ error ≠ AMX_ERR_INIT then
                  [Effect.amxBacktrace]
                else
                  [])
            ++ (if cfg.runOnError ≠ "" then [Effect.runCommand cfg.runOnError] else [])
            ++ [Effect.log "Aborting...", Effect.exitProcess EXIT_FAILURE]) =
        (Effect.log ("Run time error " ++ toString error ++ ": \"" ++ aux_StrError error ++ "\"")
          :: (augment a error
            ++ (if error ≠ AMX_ERR_NOTFOUND ∧ error ≠ AMX_ERR_INDEX
                  ∧ error ≠ AMX_ERR_CALLBACK ∧ error ≠ AMX_ERR_INIT then
                  [Effect.amxBacktrace]
                else
                  [])
            ++ (if cfg.runOnError ≠ "" then [Effect.runCommand cfg.runOnError] else [])))
          ++ [Effect.log "Aborting...", Effect.exitProcess EXIT_FAILURE] := by
      simp
    rw [heq, getLast_append_two]
  · intro hnd
    have hD : DieOrContinue cfg = [] := by
      unfold DieOrContinue
      rw [if_neg]
      simp [hnd]
    have hA := died_augment a error
    have h1 : died (if error ≠ AMX_ERR_NOTFOUND ∧ error ≠ AMX_ERR_INDEX
        ∧ error ≠ AMX_ERR_CALLBACK ∧ error ≠ AMX_ERR_INIT then
          [Effect.amxBacktrace] else ([] : List Effect)) = false :=
      died_ite_singleton _ _ rfl
    have h2 : died (if cfg.runOnError ≠ "" then
        [Effect.runCommand cfg.runOnError] else ([] : List Effect)) = false :=
      died_ite_singleton _ _ rfl
    unfold died at hA h1 h2 ⊢
    simp only [List.any_cons, List.any_append, hA, h1, h2, hD, List.any_nil]
    rfl

/-- C8 witness at cfg die_on_error = true, error 1, index 0. -/
theorem fatal_policy_after_diagnostics_witness :
    (((⟨true, ""⟩ : Config).dieOnError = true →
       (HandleExecError ⟨true, ""⟩ testAMX 0 1).1.getLast? = some (Effect.exitProcess EXIT_FAILURE)
       ∧ EXIT_FAILURE ≠ 0)
    ∧ ((⟨true, ""⟩ : Config).dieOnError = false →
        died (HandleExecError ⟨true, ""⟩ testAMX 0 1).1 = false)) :=
  fatal_policy_after_diagnostics ⟨true, ""⟩ testAMX 0 1 (by decide)

/-- C1: the dispatch wrapper and the entrypoint wrapper each push one
call record on entry and pop it before returning, on every path that
returns to the caller (including the path where a fault was classified
during the call), so the global call stack is unchanged across the
call; and each returns the delegated primitive's return code
unchanged.  The hypotheses state that the delegated callback and VM
primitive are themselves stack-balanced (their nested calls go through
the same wrappers), and that the entrypoint invocation returns (did
not terminate the process under the fatal policy). -/
theorem wrappers_push_pop_balanced (cb exec : CDState → Int × CDState) (cfg : Config)
    (a : AMXData) (s : CDState) (amxId : Nat) (index : Int) (pr : Int × CDState)
    (hcb : (cb (pushNative s amxId index)).2.npCalls = (pushNative s amxId index).npCalls)
    (hex : (exec (pushPublic s amxId index a)).2.npCalls = (pushPublic s amxId index a).npCalls)
    (hsome : (DoAmxExec exec cfg a s amxId index).1 = some pr) :
    (DoAmxCallback cb s amxId index).2.npCalls = s.npCalls
    ∧ (DoAmxCallback cb s amxId index).1 = (cb (pushNative s amxId index)).1
    ∧ pr.2.npCalls = s.npCalls
    ∧ pr.1 = (exec (pushPublic s amxId index a)).1 := by
  have hkey : pr.2.npCalls = s.npCalls ∧ pr.1 = (exec (pushPublic s amxId index a)).1 := by
    have h := hsome
    simp only [DoAmxExec] at h
    split at h
    · split at h
      · exact Option.noConfusion h
      · injection h with h2
        subst h2
        constructor
        · show (exec (pushPublic s amxId index a)).2.npCalls.tail = s.npCalls
          rw [hex]
          rfl
        · rfl
    · injection h with h2
      subst h2
      constructor
      · show (exec (pushPublic s amxId index a)).2.npCalls.tail = s.npCalls
        rw [hex]
        rfl
      · rfl
  refine ⟨?_, rfl, hkey.1, hkey.2⟩
  show (cb (pushNative s amxId index)).2.npCalls.tail = s.npCalls
  rw [hcb]
  rfl

/-- C1 witness on a trivial callback and a trivially succeeding VM
primitive over the empty call stack. -/
theorem wrappers_push_pop_balanced_witness :
    (DoAmxCallback (fun st => ((7 : Int), st)) ⟨false, []⟩ 0 1).2.npCalls = ([] : List NPCall)
    ∧ (DoAmxCallback (fun st => ((7 : Int), st)) ⟨false, []⟩ 0 1).1
        = ((fun (st : CDState) => ((7 : Int), st)) (pushNative ⟨false, []⟩ 0 1)).1
    ∧ (((0 : Int), (⟨false, []⟩ : CDState)) : Int × CDState).2.npCalls = ([] : List NPCall)
    ∧ (((0 : Int), (⟨false, []⟩ : CDState)) : Int × CDState).1
        = ((fun (st : CDState) => ((0 : Int), st)) (pushPublic ⟨false, []⟩ 0 1 testAMX)).1 :=
  wrappers_push_pop_balanced (fun st => ((7 : Int), st)) (fun st => ((0 : Int), st))
    testCfg testAMX ⟨false, []⟩ 0 1 ((0 : Int), (⟨false, []⟩ : CDState)) rfl rfl (by decide)

/-- C2: on a failing entrypoint invocation, the wrapper forwards the
non-success return code to the classifier exactly when the
already-classified latch is unset after the primitive returns; when
the latch is set, it does not classify and instead clears the latch,
so the next independent failure is classified again. -/
theorem exec_wrapper_forwards_iff_latch_unset (exec : CDState → Int × CDState) (cfg : Config)
    (a : AMXData) (s : CDState) (amxId : Nat) (index : Int)
    (hfail : (exec (pushPublic s amxId index a)).1 ≠ AMX_ERR_NONE) :
    ((DoAmxExec exec cfg a s amxId index).2.2 = true
       ↔ (exec (pushPublic s amxId index a)).2.errorCaught = false)
    ∧ ((exec (pushPublic s amxId index a)).2.errorCaught = true →
        (DoAmxExec exec cfg a s amxId index).2.2 = false
        ∧ (DoAmxExec exec cfg a s amxId index).1.map (fun p => p.2.errorCaught)
            = some false) := by
  simp only [DoAmxExec]
  by_cases hc : (exec (pushPublic s amxId index a)).1 ≠ AMX_ERR_NONE
      ∧ (exec (pushPublic s amxId index a)).2.errorCaught = false
  · rw [if_pos hc]
    constructor
    · split <;> simp [hc.2]
    · intro hlatch
      rw [hc.2] at hlatch
      exact Bool.noConfusion hlatch
  · rw [if_neg hc]
    push_neg at hc
    have hlatch := hc hfail
    constructor
    · simp only [Bool.false_eq_true, false_iff]
      intro hfalse
      exact hlatch hfalse
    · intro _
      exact ⟨rfl, rfl⟩

/-- C2 witness: a primitive that fails with code 1 and whose run set
the latch (a nested classification); the wrapper does not classify and
clears the latch. -/
theorem exec_wrapper_forwards_iff_latch_unset_witness :
    ((DoAmxExec (fun st => ((1 : Int), { st with errorCaught := true })) testCfg testAMX
        ⟨false, []⟩ 0 1).2.2 = true
      ↔ ((fun (st : CDState) => ((1 : Int), { st with errorCaught := true }))
          (pushPublic ⟨false, []⟩ 0 1 testAMX)).2.errorCaught = false)
    ∧ (((fun (st : CDState) => ((1 : Int), { st with errorCaught := true }))
          (pushPublic ⟨false, []⟩ 0 1 testAMX)).2.errorCaught = true →
        (DoAmxExec (fun st => ((1 : Int), { st with errorCaught := true })) testCfg testAMX
          ⟨false, []⟩ 0 1).2.2 = false
        ∧ (DoAmxExec (fun st => ((1 : Int), { st with errorCaught := true })) testCfg testAMX
            ⟨false, []⟩ 0 1).1.map (fun p => p.2.errorCaught) = some false) :=
  exec_wrapper_forwards_iff_latch_unset
    (fun st => ((1 : Int), { st with errorCaught := true })) testCfg testAMX
    ⟨false, []⟩ 0 1 (by decide)

/-- C9: the exec-error handler leaves the global latch set on every
path, including the suppressed debugger-detach sentinel path; as a
consequence, a wrapper that observes a non-success return code after
such a suppressed benign pseudo-error does not classify it and merely
clears the latch. -/
theorem handler_sets_latch_first (cfg : Config) (a : AMXData) (index error : Int)
    (exec : CDState → Int × CDState) (cfg2 : Config) (a2 : AMXData) (s : CDState)
    (amxId : Nat) (idx2 : Int) :
    (HandleExecError cfg a index error).2 = true
    ∧ ((exec (pushPublic s amxId idx2 a2)).1 ≠ AMX_ERR_NONE →
       (exec (pushPublic s amxId idx2 a2)).2.errorCaught = true →
       (DoAmxExec exec cfg2 a2 s amxId idx2).2.2 = false
       ∧ (DoAmxExec exec cfg2 a2 s amxId idx2).1.map (fun p => p.2.errorCaught)
           = some false) := by
  constructor
  · unfold HandleExecError
    split <;> rfl
  · intro hfail hlatch
    simp only [DoAmxExec]
    rw [if_neg]
    · exact ⟨rfl, rfl⟩
    · intro hcond
      rw [hlatch] at hcond
      exact Bool.noConfusion hcond.2

/-- C9 witness: the latch is set on the sentinel path, and a wrapper
observing failure code 1 with the latch set does not classify and
clears the latch. -/
theorem handler_sets_latch_first_witness :
    (HandleExecError testCfg testAMX AMX_EXEC_GDK AMX_ERR_INDEX).2 = true
    ∧ (((fun (st : CDState) => ((1 : Int), { st with errorCaught := true }))
          (pushPublic ⟨false, []⟩ 0 1 testAMX)).1 ≠ AMX_ERR_NONE →
       ((fun (st : CDState) => ((1 : Int), { st with errorCaught := true }))
          (pushPublic ⟨false, []⟩ 0 1 testAMX)).2.errorCaught = true →
       (DoAmxExec (fun st => ((1 : Int), { st with errorCaught := true })) testCfg testAMX
          ⟨false, []⟩ 0 1).2.2 = false
       ∧ (DoAmxExec (fun st => ((1 : Int), { st with errorCaught := true })) testCfg testAMX
            ⟨false, []⟩ 0 1).1.map (fun p => p.2.errorCaught) = some false) :=
  handler_sets_latch_first testCfg testAMX AMX_EXEC_GDK AMX_ERR_INDEX
    (fun st => ((1 : Int), { st with errorCaught := true })) testCfg testAMX
    ⟨false, []⟩ 0 1

/-- C7: when the walk of an entrypoint call record yields zero frames,
the stitcher synthesizes exactly one logical frame whose entry address
is the entrypoint's address. -/
theorem zero_frames_synthesizes_entrypoint (env : Env) (call : NPCall) (frm cip : Int)
    (hempty : env.walk call.amx frm cip = []) :
    publicFrames env call frm cip =
      [{ frameAddr := frm, retAddr := 0,
         callAddr := env.publicAddr call.amx call.index }] := by
  simp [publicFrames, hempty]

/-- C7 witness on an environment whose walker yields no frames. -/
theorem zero_frames_synthesizes_entrypoint_witness :
    publicFrames testEnv
        { kind := NPCallKind.publicEntry, amx := 0, index := 3, frm := 5, cip := 6 } 7 8
      = [{ frameAddr := 7, retAddr := 0, callAddr := testEnv.publicAddr 0 3 }] :=
  zero_frames_synthesizes_entrypoint testEnv
    { kind := NPCallKind.publicEntry, amx := 0, index := 3, frm := 5, cip := 6 } 7 8 rfl

/-- C10: the backtrace printer produces no output at all — not even
the header — when the global call stack is empty or the instruction
pointer of the instance owning the topmost record is zero. -/
theorem backtrace_empty_cases (env : Env) (npCalls : List NPCall)
    (h : npCalls = [] ∨ ∃ top rest, npCalls = top :: rest
          ∧ (env.instances top.amx).cip = 0) :
    PrintAmxBacktrace env npCalls = [] := by
  rcases h with rfl | ⟨top, rest, rfl, hcip⟩
  · rfl
  · simp [PrintAmxBacktrace, hcip]

/-- C10 witness on the empty call stack. -/
theorem backtrace_empty_cases_witness :
    PrintAmxBacktrace testEnv [] = [] :=
  backtrace_empty_cases testEnv [] (Or.inl rfl)
